import Mathlib

/-!
Verification development for the menu data/view subsystem of the
"La Arboleda Club" restaurant website (menu-loader.js, menu-filters.js,
menu-views.js / modal.js).

The JavaScript code is shallowly embedded: DOM element state is carried in
explicit record types, timers (`setTimeout`, `requestAnimationFrame`) are
modelled by inlining their callback at the point in the event sequence where
it fires, `localStorage` is a value of an explicit storage type, and the
network fetch is an explicit input describing its outcome.
-/

set_option autoImplicit false

namespace Arboleda

/-! ## JavaScript values relevant to the menu data

A JSON number parses to a JS double; its `toString` rendering drops
trailing fraction zeros (`12.00` parses and re-renders as `12`).  We model
the numbers occurring in menu data as a sign, an integer part and the list
of fraction digits, kept canonical (no trailing zero digits), which matches
the identity and default rendering of such JS numbers. -/

structure JsNum where
  neg : Bool
  intPart : Nat
  frac : List Nat
  deriving Repr, DecidableEq

/-- Default JS string rendering of a number (template-literal interpolation). -/
def JsNum.render (n : JsNum) : String :=
  (if n.neg then "-" else "") ++ toString n.intPart ++
    (if n.frac.isEmpty then "" else "." ++ String.join (n.frac.map toString))

/-- A dish's `precio` field is "a number or a numeric string". -/
inductive Precio where
  | num (n : JsNum)
  | str (s : String)
  deriving Repr, DecidableEq

/-- What `${plato.precio}` produces in a JS template literal. -/
def Precio.interp : Precio → String
  | .num n => n.render
  | .str s => s

/-- A parsed JSON document (the body of the menu fetch, or a cached value). -/
inductive Json where
  | null
  | bool (b : Bool)
  | num (n : JsNum)
  | str (s : String)
  | arr (elems : List Json)
  | obj (fields : List (String × Json))

/-- JS `typeof` on a parsed JSON value: `null` and arrays are `"object"`. -/
def Json.typeof : Json → String
  | .null => "object"
  | .bool _ => "boolean"
  | .num _ => "number"
  | .str _ => "string"
  | .arr _ => "object"
  | .obj _ => "object"

/-- JS truthiness of a parsed JSON value: `null`, `false`, `0`, `""` are
falsy; every array and object (even empty) is truthy. -/
def Json.truthy : Json → Bool
  | .null => false
  | .bool b => b
  | .num n => !(n.intPart == 0 && n.frac.isEmpty)
  | .str s => !s.isEmpty
  | .arr _ => true
  | .obj _ => true

/-- A dish record as it appears in the menu catalog. -/
structure Dish where
  nombre : String
  descripcion : String
  precio : Precio
  imagen : String
  deriving Repr, DecidableEq

/-- A well-formed menu catalog: a JS object mapping category names to dish
arrays.  JS objects keep string-key insertion order, so we embed the object
as an ordered association list; JS objects cannot repeat a key, which
theorems state as `Nodup` of the key list where it matters. -/
abbrev Catalog := List (String × List Dish)

/-- JS property lookup `data[cat]` on a catalog object: the (first) entry
with that key, `undefined` (`none`) when absent. -/
def lookupCat (data : Catalog) (cat : String) : Option (List Dish) :=
  (data.find? (fun p => p.1 == cat)).map (fun p => p.2)

/-! ## Cache store (`saveToCache` / `getFromCache`, menu-loader.js)

`localStorage` under the fixed key `arboleda_menu_cache` holds either
nothing, a string that does not parse as JSON, or a parsed
`{data, timestamp}` wrapper (`JSON.stringify`/`JSON.parse` round-trip JSON
values, so the entry stores the `Json` value directly). -/

/-- `CONFIG.cacheExpiry = 1000 * 60 * 60 * 24` (24 hours in milliseconds). -/
def cacheExpiry : Nat := 1000 * 60 * 60 * 24

/-- The persisted wrapper `{ data, timestamp: Date.now() }`. -/
structure CacheEntry where
  data : Json
  timestamp : Nat

/-- Contents of `localStorage` at the cache key. -/
inductive RawCache where
  | missing
  | unparsable (raw : String)
  | entry (e : CacheEntry)

/-- `saveToCache(data)`: writes `{data, timestamp: now}` under the fixed
key.  The source swallows storage failures (quota, disabled storage); this
models the normal-operation path where the write succeeds. -/
def saveToCache (data : Json) (now : Nat) : RawCache :=
  .entry ⟨data, now⟩

/-- `getFromCache()`: reads the fixed key; missing or unparsable content
yields `null`; an entry whose age exceeds `cacheExpiry` is removed and
yields `null`; otherwise the wrapped `data` is returned.  Returns the
result together with the storage state after the call (the read may evict). -/
def getFromCache (store : RawCache) (now : Nat) : Option Json × RawCache :=
  match store with
  | .missing => (none, .missing)
  | .unparsable raw => (none, .unparsable raw)
  | .entry e =>
      let age : Int := (now : Int) - (e.timestamp : Int)
      if age > (cacheExpiry : Int) then (none, .missing)
      else (some e.data, .entry e)

/-! ## Menu data loader (`loadMenuData`, menu-loader.js)

`MenuState` is the shared mutable singleton; the loader's DOM collaborators
(`showLoading` / `showError`) touch four elements, each guarded by a
presence check (`if (DOM.x)`), modelled with `Option`-valued fields
(`none` = element absent from the page). -/

/-- The shared `MenuState` singleton as the loader sees it (`data` holds
the parsed JSON wholesale). -/
structure LoaderState where
  data : Option Json
  activeCategory : String
  activeView : String
  isLoading : Bool
  error : Option String

/-- Initial value of `MenuState` at script load. -/
def initialLoaderState : LoaderState :=
  { data := none, activeCategory := "all", activeView := "detailed",
    isLoading := false, error := none }

/-- The loader's DOM hooks: `hidden`-class state of the loading and error
panels and `style.display` of the two content containers; `none` means the
element is absent (the guard makes the update a no-op). -/
structure LoaderDom where
  loadingHidden : Option Bool
  errorHidden : Option Bool
  menuGridDisplay : Option String
  menuSimpleDisplay : Option String

/-- `showLoading()`: reveal the loading panel, hide the error panel and
both content containers. -/
def showLoading (d : LoaderDom) : LoaderDom :=
  { loadingHidden := d.loadingHidden.map (fun _ => false),
    errorHidden := d.errorHidden.map (fun _ => true),
    menuGridDisplay := d.menuGridDisplay.map (fun _ => "none"),
    menuSimpleDisplay := d.menuSimpleDisplay.map (fun _ => "none") }

/-- `showError()`: hide the loading panel, reveal the error panel, hide
both content containers. -/
def showError (d : LoaderDom) : LoaderDom :=
  { loadingHidden := d.loadingHidden.map (fun _ => true),
    errorHidden := d.errorHidden.map (fun _ => false),
    menuGridDisplay := d.menuGridDisplay.map (fun _ => "none"),
    menuSimpleDisplay := d.menuSimpleDisplay.map (fun _ => "none") }

/-- Outcome of `await fetch(CONFIG.jsonUrl)` followed by
`await response.json()`: a non-success status (`!response.ok`), or a
successfully parsed body. -/
inductive FetchResult where
  | httpError (status : Nat)
  | success (body : Json)

/-- The structural validation in `loadMenuData`:
`if (!data || typeof data !== 'object') throw ...` — the body is accepted
iff it is truthy and its `typeof` is `"object"`. -/
def validateMenuData (data : Json) : Bool :=
  data.truthy && (data.typeof == "object")

/-- The network portion of `loadMenuData`, reached when the cache check
falls through: consumes the fetch outcome, validates the body, saves to
cache and populates shared state on success, records the error message and
shows the error UI on failure.  `st` and `dom` arrive with the loading
flag and the loading UI already set. -/
def fetchMenuData (st : LoaderState) (dom : LoaderDom) (store : RawCache)
    (now : Nat) (fetchResult : FetchResult) :
    Except String Json × LoaderState × LoaderDom × RawCache :=
  match fetchResult with
  | .httpError status =>
      let msg := "HTTP error! status: " ++ toString status
      (Except.error msg,
       { st with isLoading := false, error := some msg },
       showError dom, store)
  | .success body =>
      if validateMenuData body then
        (Except.ok body,
         { st with data := some body, isLoading := false, error := none },
         dom, saveToCache body now)
      else
        let msg := "Formato de datos inválido"
        (Except.error msg,
         { st with isLoading := false, error := some msg },
         showError dom, store)

/-- JS truthiness of the `cachedData` variable of `loadMenuData`:
`getFromCache` yields `null` (falsy) on a miss, and a JSON value whose own
truthiness decides the `if (cachedData)` test on a hit. -/
def jsTruthyOpt : Option Json → Bool
  | none => false
  | some d => d.truthy

/-- `async function loadMenuData()`: sets the loading flag and loading UI,
then tests `if (cachedData)` — a truthiness test, so a cached value that
is itself falsy (e.g. `null`) falls through to the network exactly like a
miss; a truthy hit is adopted without contacting the network; every other
case proceeds to `fetchMenuData`.  Returns the promise outcome together
with the shared state, the DOM state and the storage after the call. -/
def loadMenuData (st : LoaderState) (dom : LoaderDom) (store : RawCache)
    (now : Nat) (fetchResult : FetchResult) :
    Except String Json × LoaderState × LoaderDom × RawCache :=
  let st := { st with isLoading := true }
  let dom := showLoading dom
  match getFromCache store now with
  | (some cachedData, store) =>
      if cachedData.truthy then
        (Except.ok cachedData,
         { st with data := some cachedData, isLoading := false }, dom, store)
      else fetchMenuData st dom store now fetchResult
  | (none, store) => fetchMenuData st dom store now fetchResult

/-! ## View renderer (`renderDetailedView` / `renderSimpleView`,
menu-loader.js) -/

/-- `capitalizeFirst(str)`: `str.charAt(0).toUpperCase() + str.slice(1)`
(ASCII uppercasing suffices for the category names in the data). -/
def capitalizeFirst (s : String) : String :=
  match s.data with
  | [] => ""
  | c :: rest => String.mk (c.toUpper :: rest)

/-- The category-selection rule shared by both renders:
`category === 'all' ? Object.keys(data) : [category]`. -/
def selectedCategories (data : Catalog) (category : String) : List String :=
  if category == "all" then data.map (fun p => p.1) else [category]

/-- A detailed-view card as `createMenuCard` builds it (ARIA label, image
source and alt text, title, and the price line `S/ ${plato.precio}`).
The `index` argument of the source function is unused in the card content
(it only sequences the cosmetic entrance animation). -/
structure Card where
  ariaLabel : String
  imageSrc : String
  imageAlt : String
  title : String
  priceText : String
  deriving Repr, DecidableEq

/-- `createMenuCard(plato, index)`. -/
def createMenuCard (plato : Dish) (_index : Nat) : Card :=
  { ariaLabel := "Ver detalles de " ++ plato.nombre,
    imageSrc := plato.imagen,
    imageAlt := plato.nombre,
    title := plato.nombre,
    priceText := "S/ " ++ plato.precio.interp }

/-- The dishes `renderDetailedView` walks, in category-then-list order:
selected categories, skipping absent keys (`if (!data[cat]) return` —
a present dish array, even empty, is truthy). -/
def detailedDishes (data : Catalog) (category : String) : List Dish :=
  (selectedCategories data category).flatMap
    (fun cat => (lookupCat data cat).getD [])

/-- Content `renderDetailedView` leaves in the grid: one card per dish, or
the "No hay platos en esta categoría." placeholder when no dish matched
(`itemIndex === 0`). -/
inductive DetailedOutput where
  | cards (cs : List Card)
  | placeholder
  deriving Repr, DecidableEq

/-- `renderDetailedView(data, category)` (the grid content it produces;
the staggered `visible`-class timers are cosmetic and not modelled). -/
def renderDetailedView (data : Catalog) (category : String) : DetailedOutput :=
  let ds := detailedDishes data category
  if ds.isEmpty then .placeholder
  else .cards (ds.enum.map (fun p => createMenuCard p.2 p.1))

/-- One loop iteration of `renderSimpleView`: the section a selected
category contributes — a capitalized heading plus the dish list — or
nothing when the category is absent or empty
(`if (!data[cat] || data[cat].length === 0) return`). -/
def sectionOf (data : Catalog) (cat : String) :
    Option (String × List Dish) :=
  match lookupCat data cat with
  | none => none
  | some l => if l.isEmpty then none else some (capitalizeFirst cat, l)

/-- The sections `renderSimpleView` appends, in selected-category order. -/
def simpleSections (data : Catalog) (category : String) :
    List (String × List Dish) :=
  (selectedCategories data category).filterMap (sectionOf data)

/-- Content `renderSimpleView` leaves in the simple container. -/
inductive SimpleOutput where
  | sections (secs : List (String × List Dish))
  | placeholder
  deriving Repr, DecidableEq

/-- `renderSimpleView(data, category)`: the placeholder appears iff no
section was appended (`categories.length === 0 || !hasChildNodes()`). -/
def renderSimpleView (data : Catalog) (category : String) : SimpleOutput :=
  let secs := simpleSections data category
  if secs.isEmpty then .placeholder else .sections secs

/-! ## Filter controller (`applyFilter` / `updateFilterButtons` /
`getActiveCategory`, menu-filters.js)

A filter button carries its `data-category` attribute, the
`filter-btn--active` class marker, and the `aria-pressed` attribute (which
`setAttribute` stores as the string form of the boolean).  The buttons are
listed in document order. -/

structure FilterBtn where
  category : String
  active : Bool
  ariaPressed : String
  deriving Repr, DecidableEq

/-- `updateFilterButtons(activeCategory)`: for every `.filter-btn`, toggle
the active class and set `aria-pressed` from
`button.dataset.category === activeCategory`. -/
def updateFilterButtons (btns : List FilterBtn) (activeCategory : String) :
    List FilterBtn :=
  btns.map (fun b =>
    let isActive := b.category == activeCategory
    { b with active := isActive,
             ariaPressed := if isActive then "true" else "false" })

/-- The shared state fields `applyFilter` reads and writes
(`MenuLoader.state` with the catalog already parsed into its well-formed
shape). -/
structure SharedMenuState where
  data : Option Catalog
  activeCategory : String
  activeView : String

/-- The page as the filter controller touches it: shared state, the filter
buttons, the two rendered containers, and the ARIA live announcement. -/
structure FilterPage where
  shared : SharedMenuState
  buttons : List FilterBtn
  detailedOut : DetailedOutput
  simpleOut : SimpleOutput
  announcement : String

/-- `announceFilterChange(category)`: the live-region text
`Mostrando ${categoryName}`. -/
def announceText (category : String) : String :=
  "Mostrando " ++ (if category == "all" then "todos los platos" else category)

/-- `applyFilter(category)`: store the category into shared state, update
every button's active/ARIA state, re-render the active view when data is
loaded, and announce the change (the smooth scroll is a purely visual
effect and not modelled). -/
def applyFilter (pg : FilterPage) (category : String) : FilterPage :=
  let shared := { pg.shared with activeCategory := category }
  let buttons := updateFilterButtons pg.buttons category
  let pg := { pg with shared := shared, buttons := buttons,
                      announcement := announceText category }
  match shared.data with
  | some data =>
      if shared.activeView == "detailed" then
        { pg with detailedOut := renderDetailedView data category }
      else
        { pg with simpleOut := renderSimpleView data category }
  | none => pg

/-- `getActiveCategory()`: `document.querySelector('.filter-btn--active')`
is the first button in document order carrying the marker; return its
category, else `'all'`. -/
def getActiveCategory (btns : List FilterBtn) : String :=
  match btns.find? (fun b => b.active) with
  | some b => b.category
  | none => "all"

/-! ## Modal controller (`openMenuModal` / `closeMenuModal`, modal.js)

Page elements are identified by numeric ids; `document.activeElement` is
the id of the focused element.  Content slots inside the dialog are
`Option`-valued (`none` = element absent; every update is guarded by
`if (ModalDOM.x)` / optional chaining in the source).  The
`requestAnimationFrame` opacity tick, the 100 ms focus timer of `open` and
the 300 ms fade timer of `close` are inlined at the point in the event
sequence where they fire. -/

structure ModalDom where
  present : Bool
  display : String
  ariaHidden : String
  opacity : String
  image : Option (String × String)
  title : Option String
  description : Option String
  price : Option String
  closeBtn : Option Nat
  focusables : List Nat

/-- The `modalState` singleton of modal.js. -/
structure ModalFlags where
  isOpen : Bool
  lastFocusedElement : Option Nat
  focusableElements : List Nat

/-- The page as the modal controller touches it. -/
structure ModalPage where
  dom : ModalDom
  flags : ModalFlags
  activeElement : Option Nat
  bodyOverflow : String

/-- `openMenuModal(plato)`: no-op when the dialog is absent; otherwise
records the focused element, fills the content slots (price as
`S/ ${plato.precio}`), shows the dialog (`display: flex`,
`aria-hidden="false"`, opacity 1 on the next frame), suppresses body
scroll, recomputes the focusable set, focuses the close control after
100 ms, and sets the open flag. -/
def openMenuModal (pg : ModalPage) (plato : Dish) : ModalPage :=
  if !pg.dom.present then pg
  else
    let dom := { pg.dom with
      image := pg.dom.image.map (fun _ => (plato.imagen, plato.nombre)),
      title := pg.dom.title.map (fun _ => plato.nombre),
      description := pg.dom.description.map (fun _ => plato.descripcion),
      price := pg.dom.price.map (fun _ => "S/ " ++ plato.precio.interp),
      display := "flex", ariaHidden := "false", opacity := "1" }
    let flags := { isOpen := true,
                   lastFocusedElement := pg.activeElement,
                   focusableElements := pg.dom.focusables }
    let activeElement :=
      match pg.dom.closeBtn with
      | some btn => some btn
      | none => pg.activeElement
    { dom := dom, flags := flags, activeElement := activeElement,
      bodyOverflow := "hidden" }

/-- `closeMenuModal()`: no-op when the dialog is absent or not open;
otherwise fades out and, when the 300 ms timer fires, hides the dialog,
marks it hidden for assistive tech, restores body scroll, restores focus
to the recorded element (when one was recorded), and clears the open
flag. -/
def closeMenuModal (pg : ModalPage) : ModalPage :=
  if !pg.dom.present || !pg.flags.isOpen then pg
  else
    let dom := { pg.dom with opacity := "0", display := "none",
                             ariaHidden := "true" }
    let activeElement :=
      match pg.flags.lastFocusedElement with
      | some e => some e
      | none => pg.activeElement
    { dom := dom, flags := { pg.flags with isOpen := false },
      activeElement := activeElement, bodyOverflow := "" }

/-! ## Display-text helpers used by the price-format claims -/

/-- The characters after the last `'.'` of a character list, when one
occurs. -/
def afterLastDot : List Char → Option (List Char)
  | [] => none
  | c :: rest =>
      match afterLastDot rest with
      | some tail => some tail
      | none => if c = '.' then some rest else none

/-- The fraction-digit part of a displayed text: the characters after the
last `'.'`, when the text contains one. -/
def fractionDigits (s : String) : Option String :=
  (afterLastDot s.data).map String.mk

/-- Whether a displayed text carries exactly two fraction digits. -/
def hasTwoFractionDigits (s : String) : Bool :=
  match fractionDigits s with
  | some f => f.length == 2
  | none => false

/-! ## Concrete sample data (pages with every DOM hook present, and the
"Causa" dish from the menu data) used to instantiate the theorems -/

/-- A loader DOM state in which every hook element exists. -/
def fullDom : LoaderDom :=
  { loadingHidden := some true, errorHidden := some true,
    menuGridDisplay := some "grid", menuSimpleDisplay := some "none" }

/-- The "Causa" dish of the spec's scenario: integer price 12. -/
def causaDish : Dish :=
  { nombre := "Causa", descripcion := "Papa amarilla con relleno",
    precio := .num ⟨false, 12, []⟩, imagen := "causa.jpg" }

/-- The spec scenario catalog `{"entradas": [Causa], "postres": []}`. -/
def sampleCatalog : Catalog :=
  [("entradas", [causaDish]), ("postres", [])]

/-- A modal page whose dialog and all its slots exist, with focus on
element 3 and close control 7. -/
def sampleModalPage : ModalPage :=
  { dom := { present := true, display := "none", ariaHidden := "true",
             opacity := "0", image := some ("", ""), title := some "",
             description := some "", price := some "", closeBtn := some 7,
             focusables := [7] },
    flags := { isOpen := false, lastFocusedElement := none,
               focusableElements := [] },
    activeElement := some 3, bodyOverflow := "" }

/-- A filter page with an "all" control and an "entradas" control, the
"all" one currently active, and no catalog loaded yet. -/
def samplePage : FilterPage :=
  { shared := { data := none, activeCategory := "all",
                activeView := "detailed" },
    buttons := [⟨"all", true, "true"⟩, ⟨"entradas", false, "false"⟩],
    detailedOut := .placeholder, simpleOut := .placeholder,
    announcement := "" }

/-! ## Helper lemmas -/

/-- Appending to a nonempty string never yields the empty string. -/
theorem string_append_ne_empty (a b : String) (h : a ≠ "") : a ++ b ≠ "" := by
  intro hab
  apply h
  have hlen : (a ++ b).length = ("" : String).length := by rw [hab]
  simp only [String.length_append] at hlen
  have ha : a.length = 0 := by
    have : ("" : String).length = 0 := rfl
    omega
  apply String.ext
  have : a.data.length = 0 := ha
  simpa using List.eq_nil_of_length_eq_zero this

/-- Pointwise-equal functions give equal `flatMap`s. -/
theorem flatMap_congr_mem {α β : Type} (l : List α) (f g : α → List β)
    (h : ∀ a ∈ l, f a = g a) : l.flatMap f = l.flatMap g := by
  induction l with
  | nil => rfl
  | cons a t ih =>
      simp only [List.flatMap_cons]
      rw [h a (by simp), ih (fun x hx => h x (by simp [hx]))]

/-- Over a catalog with no repeated key, walking every key and looking each
one up again recovers exactly the concatenation of all dish lists. -/
theorem flatMap_lookup_eq_flatten (data : Catalog)
    (h : (data.map Prod.fst).Nodup) :
    (data.map Prod.fst).flatMap (fun c => (lookupCat data c).getD []) =
      (data.map Prod.snd).flatten := by
  induction data with
  | nil => rfl
  | cons p rest ih =>
      simp only [List.map_cons, List.nodup_cons] at h
      obtain ⟨hnotin, hnodup⟩ := h
      simp only [List.map_cons, List.flatMap_cons, List.flatten_cons]
      have hhead : lookupCat (p :: rest) p.1 = some p.2 := by
        simp [lookupCat, List.find?_cons_of_pos]
      rw [hhead]
      have htail :
          (rest.map Prod.fst).flatMap
              (fun c => (lookupCat (p :: rest) c).getD []) =
            (rest.map Prod.fst).flatMap
              (fun c => (lookupCat rest c).getD []) := by
        apply flatMap_congr_mem
        intro c hc
        have hne : (p.1 == c) = false := by
          simp only [beq_eq_false_iff_ne]
          intro hcontra
          exact hnotin (hcontra ▸ hc)
        simp [lookupCat, List.find?_cons_of_neg, hne]
      rw [htail, ih hnodup]
      rfl

/-- `find?` of a predicate returns the head of the filtered list. -/
theorem find?_eq_head_of_filter_singleton {α : Type} (l : List α)
    (p : α → Bool) (b : α) (h : l.filter p = [b]) : l.find? p = some b := by
  induction l with
  | nil => simp at h
  | cons a t ih =>
      by_cases ha : p a
      · rw [List.filter_cons_of_pos ha] at h
        obtain ⟨rfl, -⟩ := List.cons_eq_cons.mp h
        exact List.find?_cons_of_pos _ ha
      · rw [List.filter_cons_of_neg ha] at h
        rw [List.find?_cons_of_neg _ ha]
        exact ih h

/-- Pointwise-equal functions give equal `filterMap`s. -/
theorem filterMap_congr_mem {α β : Type} (l : List α) (f g : α → Option β)
    (h : ∀ a ∈ l, f a = g a) : l.filterMap f = l.filterMap g := by
  induction l with
  | nil => rfl
  | cons a t ih =>
      rw [List.filterMap_cons, List.filterMap_cons, h a (by simp),
        ih (fun x hx => h x (by simp [hx]))]

/-- Over a catalog with no repeated key, the simple view's section walk at
`"all"` produces one section per nonempty category, in catalog insertion
order, carrying that category's capitalized name and its full dish list. -/
theorem simpleSections_all (data : Catalog)
    (h : (data.map Prod.fst).Nodup) :
    simpleSections data "all" =
      (data.filter (fun p => !p.2.isEmpty)).map
        (fun p => (capitalizeFirst p.1, p.2)) := by
  induction data with
  | nil => rfl
  | cons p rest ih =>
      simp only [List.map_cons, List.nodup_cons] at h
      obtain ⟨hnotin, hnodup⟩ := h
      have hsel : selectedCategories (p :: rest) "all" =
          p.1 :: rest.map Prod.fst := by
        simp [selectedCategories]
      have hselr : selectedCategories rest "all" = rest.map Prod.fst := by
        simp [selectedCategories]
      have htail : (rest.map Prod.fst).filterMap (sectionOf (p :: rest)) =
          (rest.map Prod.fst).filterMap (sectionOf rest) := by
        apply filterMap_congr_mem
        intro c hc
        have hne : (p.1 == c) = false := by
          simp only [beq_eq_false_iff_ne]
          intro hcontra
          exact hnotin (hcontra ▸ hc)
        simp [sectionOf, lookupCat, List.find?_cons_of_neg, hne]
      have hih := ih hnodup
      rw [simpleSections, hselr] at hih
      rw [simpleSections, hsel]
      cases hemp : p.2.isEmpty with
      | true =>
          have hsecp : sectionOf (p :: rest) p.1 = none := by
            simp [sectionOf, lookupCat, List.find?_cons_of_pos, hemp]
          simp [List.filterMap_cons, List.filter_cons, hsecp, hemp,
            htail, hih]
      | false =>
          have hsecp : sectionOf (p :: rest) p.1 =
              some (capitalizeFirst p.1, p.2) := by
            simp [sectionOf, lookupCat, List.find?_cons_of_pos, hemp]
          simp [List.filterMap_cons, List.filter_cons, hsecp, hemp,
            htail, hih]

/-- Dropping the empty categories does not change the concatenation of
the dish lists. -/
theorem flatMap_sections_eq_flatten (l : Catalog) :
    ((l.filter (fun p => !p.2.isEmpty)).map
        (fun p => (capitalizeFirst p.1, p.2))).flatMap (fun p => p.2) =
      (l.map Prod.snd).flatten := by
  induction l with
  | nil => rfl
  | cons p rest ih =>
      cases hemp : p.2.isEmpty with
      | true =>
          have hnil : p.2 = [] := by simpa using hemp
          simp [List.filter_cons, hemp, ih, hnil]
      | false =>
          simp [List.filter_cons, hemp, ih]

/-! ## Claim C6: cache expiry and absence -/

/-- Claim C6: a cache entry whose age at `getFromCache` time strictly
exceeds the 24-hour TTL reports absent and is removed from storage; a
missing entry and an unparsable entry likewise report absent (the
unparsable one is left in place, as the source's catch path does not
evict). -/
theorem getFromCache_expired_or_bad_absent (e : CacheEntry) (now : Nat)
    (raw : String)
    (hexp : (now : Int) - (e.timestamp : Int) > (cacheExpiry : Int)) :
    getFromCache (.entry e) now = (none, .missing)
    ∧ getFromCache .missing now = (none, .missing)
    ∧ getFromCache (.unparsable raw) now = (none, .unparsable raw) := by
  refine ⟨?_, rfl, rfl⟩
  simp [getFromCache, hexp]

/-- Witness for C6: a concrete entry written at time 0 and read strictly
more than 24 hours later. -/
theorem getFromCache_expired_or_bad_absent_witness :
    ((86400001 : Int) - ((0 : Nat) : Int) > (cacheExpiry : Int))
    ∧ getFromCache (.entry ⟨Json.null, 0⟩) 86400001 = (none, .missing) :=
  ⟨by norm_num [cacheExpiry],
   (getFromCache_expired_or_bad_absent ⟨Json.null, 0⟩ 86400001 ""
     (by norm_num [cacheExpiry])).1⟩

/-! ## Claim C7: cache round-trip -/

/-- Claim C7: saving a catalog and loading it again before the 24-hour TTL
elapses (with storage operating normally) returns the saved catalog, and
leaves the entry in place. -/
theorem cache_roundtrip (data : Json) (nowS nowL : Nat)
    (_hordered : nowS ≤ nowL) (h2 : nowL - nowS ≤ cacheExpiry) :
    getFromCache (saveToCache data nowS) nowL =
      (some data, saveToCache data nowS) := by
  simp only [saveToCache, getFromCache]
  have hle : ¬ ((nowL : Int) - (nowS : Int) > (cacheExpiry : Int)) := by
    simp only [cacheExpiry] at h2 ⊢
    omega
  simp [hle]

/-- Witness for C7 at a concrete catalog and timestamps. -/
theorem cache_roundtrip_witness :
    (0 : Nat) ≤ 5 ∧ 5 - 0 ≤ cacheExpiry
    ∧ getFromCache (saveToCache (Json.obj []) 0) 5 =
        (some (Json.obj []), saveToCache (Json.obj []) 0) :=
  ⟨by decide, by norm_num [cacheExpiry],
   cache_roundtrip (Json.obj []) 0 5 (by decide) (by norm_num [cacheExpiry])⟩

/-! ## Claim C9: the error field across `loadMenuData` paths -/

/-- Claim C9: a `loadMenuData` call that succeeds via a cache hit — the
`if (cachedData)` truthiness test passing — leaves the shared state's
`error` field exactly as it was (a stale message from a previous failed
load persists); whenever that test fails (cache miss, or a cached value
that is itself falsy), the field is reset to `null` only on the
successful-network-fetch path, the two failure paths setting a non-null
message instead. -/
theorem loadMenuData_error_field_frame (st : LoaderState) (dom : LoaderDom)
    (store : RawCache) (now : Nat) (fr : FetchResult) (d body : Json)
    (s : Nat) :
    ((getFromCache store now).1 = some d → d.truthy = true →
      (loadMenuData st dom store now fr).2.1.error = st.error)
    ∧ (jsTruthyOpt (getFromCache store now).1 = false →
        validateMenuData body = true →
      (loadMenuData st dom store now (.success body)).2.1.error = none)
    ∧ (jsTruthyOpt (getFromCache store now).1 = false →
      (loadMenuData st dom store now (.httpError s)).2.1.error =
        some ("HTTP error! status: " ++ toString s))
    ∧ (jsTruthyOpt (getFromCache store now).1 = false →
        validateMenuData body = false →
      (loadMenuData st dom store now (.success body)).2.1.error =
        some "Formato de datos inválido") := by
  have hfall : ∀ fr' : FetchResult,
      jsTruthyOpt (getFromCache store now).1 = false →
      loadMenuData st dom store now fr' =
        fetchMenuData { st with isLoading := true } (showLoading dom)
          (getFromCache store now).2 now fr' := by
    intro fr' hf
    rcases hsplit : getFromCache store now with ⟨res, store'⟩
    rw [hsplit] at hf
    cases res with
    | none => simp [loadMenuData, hsplit]
    | some d' =>
        simp only [jsTruthyOpt] at hf
        simp [loadMenuData, hsplit, hf]
  refine ⟨?_, ?_, ?_, ?_⟩
  · intro hhit htruthy
    rcases hsplit : getFromCache store now with ⟨res, store'⟩
    rw [hsplit] at hhit
    simp only at hhit
    subst hhit
    simp [loadMenuData, hsplit, htruthy]
  · intro hf hval
    rw [hfall _ hf]
    simp [fetchMenuData, hval]
  · intro hf
    rw [hfall _ hf]
    simp [fetchMenuData]
  · intro hf hval
    rw [hfall _ hf]
    simp [fetchMenuData, hval]

/-- Witness for C9: a truthy cache hit (a fresh object entry) leaves a
stale error `"boom"` untouched; with an empty cache the network success
resets the field to `none` and the two failure paths set a non-null
message. -/
theorem loadMenuData_error_field_frame_witness :
    (getFromCache (saveToCache (Json.obj []) 0) 0).1 = some (Json.obj [])
    ∧ (Json.obj []).truthy = true
    ∧ validateMenuData (Json.obj []) = true
    ∧ (loadMenuData { initialLoaderState with error := some "boom" } fullDom
        (saveToCache (Json.obj []) 0) 0 (.httpError 500)).2.1.error =
        some "boom"
    ∧ (loadMenuData initialLoaderState fullDom .missing 0
        (.success (Json.obj []))).2.1.error = none
    ∧ (loadMenuData initialLoaderState fullDom .missing 0
        (.httpError 500)).2.1.error = some ("HTTP error! status: " ++
          toString (500 : Nat))
    ∧ (loadMenuData initialLoaderState fullDom .missing 0
        (.success Json.null)).2.1.error =
        some "Formato de datos inválido" :=
  ⟨rfl, rfl, rfl,
   (loadMenuData_error_field_frame
      { initialLoaderState with error := some "boom" } fullDom
      (saveToCache (Json.obj []) 0) 0 (.httpError 500)
      (Json.obj []) (Json.obj []) 500).1 rfl rfl,
   (loadMenuData_error_field_frame initialLoaderState fullDom .missing 0
      (.httpError 500) (Json.obj []) (Json.obj []) 500).2.1 rfl rfl,
   (loadMenuData_error_field_frame initialLoaderState fullDom .missing 0
      (.httpError 500) (Json.obj []) (Json.obj []) 500).2.2.1 rfl,
   (loadMenuData_error_field_frame initialLoaderState fullDom .missing 0
      (.httpError 500) (Json.obj []) Json.null 500).2.2.2 rfl rfl⟩

/-! ## Claim C10: `getActiveCategory` reads the DOM marker -/

/-- Claim C10: `getActiveCategory` returns the category of the (unique)
control carrying the active marker, and `"all"` whenever no control
carries it — including when no filter controls exist at all. -/
theorem getActiveCategory_reads_marker (btns : List FilterBtn)
    (b : FilterBtn) :
    ((∀ x ∈ btns, x.active = false) → getActiveCategory btns = "all")
    ∧ (btns.filter (fun x => x.active) = [b] →
        getActiveCategory btns = b.category) := by
  constructor
  · intro hnone
    have hfind : btns.find? (fun x => x.active) = none := by
      rw [List.find?_eq_none]
      intro x hx
      simp [hnone x hx]
    simp [getActiveCategory, hfind]
  · intro huniq
    have hfind : btns.find? (fun x => x.active) = some b :=
      find?_eq_head_of_filter_singleton btns _ b huniq
    simp [getActiveCategory, hfind]

/-- Witness for C10: the empty control list yields `"all"`, and a list in
which exactly the `"entradas"` control is active yields `"entradas"`. -/
theorem getActiveCategory_reads_marker_witness :
    getActiveCategory [] = "all"
    ∧ getActiveCategory
        [⟨"all", false, "false"⟩, ⟨"entradas", true, "true"⟩] = "entradas" :=
  ⟨(getActiveCategory_reads_marker [] ⟨"all", false, "false"⟩).1
     (by intro x hx; simp at hx),
   (getActiveCategory_reads_marker
      [⟨"all", false, "false"⟩, ⟨"entradas", true, "true"⟩]
      ⟨"entradas", true, "true"⟩).2 (by decide)⟩

/-! ## Claim C8: modal open/close round-trip -/

/-- Claim C8: when the dialog exists, `openMenuModal(plato)` followed by
`closeMenuModal()` (its 300 ms fade timer included) restores focus to
exactly the element focused at open time, leaves the dialog hidden
(`display: none`) and marked hidden for assistive tech
(`aria-hidden="true"`), restores page scroll, and clears the open flag. -/
theorem modal_open_close_roundtrip (pg : ModalPage) (plato : Dish) (E : Nat)
    (hp : pg.dom.present = true) (hf : pg.activeElement = some E) :
    (closeMenuModal (openMenuModal pg plato)).activeElement = some E
    ∧ (closeMenuModal (openMenuModal pg plato)).dom.display = "none"
    ∧ (closeMenuModal (openMenuModal pg plato)).dom.ariaHidden = "true"
    ∧ (closeMenuModal (openMenuModal pg plato)).bodyOverflow = ""
    ∧ (closeMenuModal (openMenuModal pg plato)).flags.isOpen = false := by
  simp only [openMenuModal, hp, Bool.not_true, Bool.false_eq_true,
    if_false, ite_false]
  simp [closeMenuModal, hp, hf]

/-- Witness for C8: the sample page (dialog present, element 3 focused)
and the "Causa" dish. -/
theorem modal_open_close_roundtrip_witness :
    sampleModalPage.dom.present = true
    ∧ sampleModalPage.activeElement = some 3
    ∧ (closeMenuModal (openMenuModal sampleModalPage causaDish)).activeElement
        = some 3
    ∧ (closeMenuModal (openMenuModal sampleModalPage causaDish)).flags.isOpen
        = false :=
  ⟨rfl, rfl,
   (modal_open_close_roundtrip sampleModalPage causaDish 3 rfl rfl).1,
   (modal_open_close_roundtrip sampleModalPage causaDish 3 rfl rfl).2.2.2.2⟩

/-! ## Claim C5: loader failure path -/

/-- Claim C5: on a cache miss followed by a failed fetch (non-success HTTP
status, or a body failing structural validation), `loadMenuData` leaves a
non-empty message in the shared state's `error` field, clears the loading
flag, shows the error panel while hiding the loading panel and both
content containers (each hook element being present), and re-raises the
error to the caller. -/
theorem loadMenuData_failure_path (st : LoaderState) (dom : LoaderDom)
    (store : RawCache) (now : Nat) (fr : FetchResult)
    (hmiss : (getFromCache store now).1 = none)
    (hfail : (∃ s, fr = .httpError s) ∨
      (∃ body, fr = .success body ∧ validateMenuData body = false))
    (hl : dom.loadingHidden.isSome) (he : dom.errorHidden.isSome)
    (hg : dom.menuGridDisplay.isSome) (hs : dom.menuSimpleDisplay.isSome) :
    ∃ msg, msg ≠ ""
      ∧ (loadMenuData st dom store now fr).1 = Except.error msg
      ∧ (loadMenuData st dom store now fr).2.1.error = some msg
      ∧ (loadMenuData st dom store now fr).2.1.isLoading = false
      ∧ (loadMenuData st dom store now fr).2.2.1.loadingHidden = some true
      ∧ (loadMenuData st dom store now fr).2.2.1.errorHidden = some false
      ∧ (loadMenuData st dom store now fr).2.2.1.menuGridDisplay = some "none"
      ∧ (loadMenuData st dom store now fr).2.2.1.menuSimpleDisplay =
          some "none" := by
  rcases hsplit : getFromCache store now with ⟨res, store'⟩
  rw [hsplit] at hmiss
  simp only at hmiss
  subst hmiss
  obtain ⟨bl, hbl⟩ := Option.isSome_iff_exists.mp hl
  obtain ⟨be, hbe⟩ := Option.isSome_iff_exists.mp he
  obtain ⟨bg, hbg⟩ := Option.isSome_iff_exists.mp hg
  obtain ⟨bs, hbs⟩ := Option.isSome_iff_exists.mp hs
  rcases hfail with ⟨s, rfl⟩ | ⟨body, rfl, hval⟩
  · refine ⟨"HTTP error! status: " ++ toString s,
      string_append_ne_empty _ _ (by decide), ?_⟩
    simp [loadMenuData, fetchMenuData, hsplit, showError, showLoading,
      hbl, hbe, hbg, hbs]
  · refine ⟨"Formato de datos inválido", by decide, ?_⟩
    simp [loadMenuData, fetchMenuData, hsplit, hval, showError, showLoading,
      hbl, hbe, hbg, hbs]

/-- Witness for C5: empty cache, HTTP 500, every hook element present. -/
theorem loadMenuData_failure_path_witness :
    (getFromCache .missing 0).1 = none
    ∧ (∃ msg, msg ≠ ""
        ∧ (loadMenuData initialLoaderState fullDom .missing 0
            (.httpError 500)).1 = Except.error msg
        ∧ (loadMenuData initialLoaderState fullDom .missing 0
            (.httpError 500)).2.1.error = some msg
        ∧ (loadMenuData initialLoaderState fullDom .missing 0
            (.httpError 500)).2.1.isLoading = false
        ∧ (loadMenuData initialLoaderState fullDom .missing 0
            (.httpError 500)).2.2.1.loadingHidden = some true
        ∧ (loadMenuData initialLoaderState fullDom .missing 0
            (.httpError 500)).2.2.1.errorHidden = some false
        ∧ (loadMenuData initialLoaderState fullDom .missing 0
            (.httpError 500)).2.2.1.menuGridDisplay = some "none"
        ∧ (loadMenuData initialLoaderState fullDom .missing 0
            (.httpError 500)).2.2.1.menuSimpleDisplay = some "none") :=
  ⟨rfl,
   loadMenuData_failure_path initialLoaderState fullDom .missing 0
     (.httpError 500) rfl (.inl ⟨500, rfl⟩) rfl rfl rfl rfl⟩

/-! ## Claim C1: structural validation of the fetched body -/

/-- Claim C1 counterexample: on a cache miss, a fetch that succeeds with a
JSON array body does NOT fail — `loadMenuData` accepts the array (`[]` is
truthy and `typeof [] === 'object'`), contradicting the claim that an
array body fails validation with a `LoadError`. -/
theorem array_body_accepted_counterexample :
    (loadMenuData initialLoaderState fullDom .missing 0
        (.success (Json.arr []))).1 = Except.ok (Json.arr [])
    ∧ (loadMenuData initialLoaderState fullDom .missing 0
        (.success (Json.arr []))).2.1.error = none := by
  constructor <;> rfl

/-- Claim C1 (amended): on a cache miss, a success-status fetch whose
parsed body is `null` or a scalar (boolean, number, or string) fails with
the human-readable `LoadError` message `"Formato de datos inválido"`; a
JSON array body, being a truthy JS object, passes the structural check and
is accepted. -/
theorem loadMenuData_body_validation (st : LoaderState) (dom : LoaderDom)
    (store : RawCache) (now : Nat)
    (hmiss : (getFromCache store now).1 = none) :
    (∀ body : Json, (body.typeof ≠ "object" ∨ body = .null) →
      (loadMenuData st dom store now (.success body)).1 =
        Except.error "Formato de datos inválido")
    ∧ (∀ elems : List Json,
      (loadMenuData st dom store now (.success (.arr elems))).1 =
        Except.ok (.arr elems)) := by
  rcases hsplit : getFromCache store now with ⟨res, store'⟩
  rw [hsplit] at hmiss
  simp only at hmiss
  subst hmiss
  constructor
  · intro body hbody
    have hval : validateMenuData body = false := by
      cases body <;>
        simp_all [validateMenuData, Json.typeof, Json.truthy]
    simp [loadMenuData, fetchMenuData, hsplit, hval]
  · intro elems
    simp [loadMenuData, fetchMenuData, hsplit, validateMenuData,
      Json.truthy, Json.typeof]

/-- Witness for C1 (amended): a `null` body is rejected with the message,
an array body is accepted. -/
theorem loadMenuData_body_validation_witness :
    (getFromCache .missing 0).1 = none
    ∧ (loadMenuData initialLoaderState fullDom .missing 0
        (.success Json.null)).1 = Except.error "Formato de datos inválido"
    ∧ (loadMenuData initialLoaderState fullDom .missing 0
        (.success (Json.arr [Json.null]))).1 =
        Except.ok (Json.arr [Json.null]) :=
  ⟨rfl,
   (loadMenuData_body_validation initialLoaderState fullDom .missing 0
      rfl).1 Json.null (Or.inr rfl),
   (loadMenuData_body_validation initialLoaderState fullDom .missing 0
      rfl).2 [Json.null]⟩

/-! ## Claim C2: price display format -/

/-- Claim C2 counterexample: for the "Causa" dish with the (integer) JSON
number price `12`, both the detailed card and the modal dialog display
`"S/ 12"` — no fraction digits at all, not a 2-fraction-digit currency
rendering. -/
theorem price_two_decimals_counterexample :
    (createMenuCard causaDish 0).priceText = "S/ 12"
    ∧ hasTwoFractionDigits ((createMenuCard causaDish 0).priceText) = false
    ∧ (openMenuModal sampleModalPage causaDish).dom.price = some "S/ 12"
    ∧ hasTwoFractionDigits "S/ 12" = false := by
  refine ⟨by decide, by decide, ?_, by decide⟩
  decide

/-- Claim C2 (amended): the detailed-view card and the modal dialog both
display the dish's price as the raw stored value interpolated after the
prefix `"S/ "`, identically in the two places; no fraction-digit
normalization is applied, so the displayed text carries two fraction
digits only when the stored value's own rendering does. -/
theorem price_raw_interpolation (plato : Dish) (i : Nat) (pg : ModalPage)
    (t : String) (hp : pg.dom.present = true) (hs : pg.dom.price = some t) :
    (createMenuCard plato i).priceText = "S/ " ++ plato.precio.interp
    ∧ (openMenuModal pg plato).dom.price =
        some ("S/ " ++ plato.precio.interp)
    ∧ hasTwoFractionDigits ((createMenuCard plato i).priceText) =
        hasTwoFractionDigits ("S/ " ++ plato.precio.interp) := by
  refine ⟨rfl, ?_, rfl⟩
  simp [openMenuModal, hp, hs]

/-- Witness for C2 (amended) at the "Causa" dish and the sample page. -/
theorem price_raw_interpolation_witness :
    sampleModalPage.dom.present = true
    ∧ sampleModalPage.dom.price = some ""
    ∧ (createMenuCard causaDish 0).priceText = "S/ " ++ causaDish.precio.interp
    ∧ (openMenuModal sampleModalPage causaDish).dom.price =
        some ("S/ " ++ causaDish.precio.interp) :=
  ⟨rfl, rfl,
   (price_raw_interpolation causaDish 0 sampleModalPage "" rfl rfl).1,
   (price_raw_interpolation causaDish 0 sampleModalPage "" rfl rfl).2.1⟩

/-! ## Claim C3: button state after `applyFilter` -/

/-- Claim C3 counterexample: applying the filter `"postres"` on a page
whose controls are `"all"` and `"entradas"` leaves ZERO controls active —
not exactly one — because no control's category matches the request. -/
theorem applyFilter_one_active_counterexample :
    ¬ ((applyFilter samplePage "postres").buttons.countP
        (fun b => b.active && (b.ariaPressed == "true")) = 1) := by
  decide

/-- Claim C3 (amended): after `applyFilter(category)`, a filter control
carries the active marker and `aria-pressed="true"` exactly when its
category attribute equals the requested category; hence the number of
active controls equals the number of controls carrying that category —
one when exactly one control does, zero when the category matches no
control. -/
theorem applyFilter_active_iff_category (pg : FilterPage)
    (category : String) :
    (∀ b ∈ (applyFilter pg category).buttons,
       b.active = (b.category == category)
       ∧ b.ariaPressed = (if b.category == category then "true" else "false"))
    ∧ (applyFilter pg category).buttons.countP (fun b => b.active) =
        pg.buttons.countP (fun b => b.category == category)
    ∧ (pg.buttons.countP (fun b => b.category == category) = 1 →
        (applyFilter pg category).buttons.countP (fun b => b.active) = 1) := by
  have hbtns : (applyFilter pg category).buttons =
      updateFilterButtons pg.buttons category := by
    cases hd : pg.shared.data with
    | none => simp [applyFilter, hd]
    | some data =>
        simp only [applyFilter, hd]
        split <;> rfl
  have hcount : (applyFilter pg category).buttons.countP
      (fun b => b.active) =
      pg.buttons.countP (fun b => b.category == category) := by
    rw [hbtns]
    simp only [updateFilterButtons, List.countP_map]
    rfl
  refine ⟨?_, hcount, fun h => hcount.trans h⟩
  intro b hb
  rw [hbtns] at hb
  simp only [updateFilterButtons, List.mem_map] at hb
  obtain ⟨a, _, rfl⟩ := hb
  exact ⟨rfl, rfl⟩

/-- Witness for C3 (amended): requesting `"entradas"` on the sample page,
whose controls are `"all"` and `"entradas"`, activates exactly one
control. -/
theorem applyFilter_active_iff_category_witness :
    samplePage.buttons.countP (fun b => b.category == "entradas") = 1
    ∧ (applyFilter samplePage "entradas").buttons.countP
        (fun b => b.active) = 1 :=
  ⟨by decide,
   (applyFilter_active_iff_category samplePage "entradas").2.2 (by decide)⟩

/-! ## Claim C4: category filtering of the two renders -/

/-- Claim C4: rendering with `"all"` walks the dishes of every category
concatenated in catalog insertion order — for the detailed view as the
flattened dish sequence, for the simple view as one section per nonempty
category in catalog order whose dish lists concatenate to the same
sequence; rendering a specific category `X` walks exactly `X`'s dishes; an
absent `X` (and likewise an `X` whose dish list is empty) yields the
empty-state placeholder rather than an error, in both views. -/
theorem render_filtering (data : Catalog) (X : String)
    (hnodup : (data.map Prod.fst).Nodup) (hX : X ≠ "all") :
    detailedDishes data "all" = (data.map Prod.snd).flatten
    ∧ detailedDishes data X = (lookupCat data X).getD []
    ∧ (lookupCat data X = none →
        renderDetailedView data X = .placeholder
        ∧ renderSimpleView data X = .placeholder)
    ∧ (∀ l, lookupCat data X = some l →
        renderDetailedView data X =
          (if l.isEmpty then .placeholder
           else .cards (l.enum.map (fun p => createMenuCard p.2 p.1)))
        ∧ renderSimpleView data X =
          (if l.isEmpty then .placeholder
           else .sections [(capitalizeFirst X, l)]))
    ∧ simpleSections data "all" =
        (data.filter (fun p => !p.2.isEmpty)).map
          (fun p => (capitalizeFirst p.1, p.2))
    ∧ renderSimpleView data "all" =
        (if ((data.filter (fun p => !p.2.isEmpty)).map
              (fun p => (capitalizeFirst p.1, p.2))).isEmpty
         then .placeholder
         else .sections ((data.filter (fun p => !p.2.isEmpty)).map
           (fun p => (capitalizeFirst p.1, p.2))))
    ∧ (simpleSections data "all").flatMap (fun p => p.2) =
        (data.map Prod.snd).flatten := by
  have hXb : (X == "all") = false := beq_eq_false_iff_ne.mpr hX
  have hsel : selectedCategories data X = [X] := by
    simp [selectedCategories, hXb]
  have hdX : detailedDishes data X = (lookupCat data X).getD [] := by
    simp [detailedDishes, hsel]
  have hsecall := simpleSections_all data hnodup
  refine ⟨?_, hdX, ?_, ?_, hsecall, ?_, ?_⟩
  · have : selectedCategories data "all" = data.map Prod.fst := by
      simp [selectedCategories]
    rw [detailedDishes, this]
    exact flatMap_lookup_eq_flatten data hnodup
  · intro habs
    constructor
    · simp [renderDetailedView, hdX, habs]
    · simp [renderSimpleView, simpleSections, sectionOf, hsel, habs]
  · intro l hl
    constructor
    · rw [renderDetailedView, hdX, hl]
      cases l <;> simp
    · rw [renderSimpleView]
      simp only [simpleSections, sectionOf, hsel, List.filterMap_cons, hl]
      cases l <;> simp
  · rw [renderSimpleView, hsecall]
  · rw [hsecall]
    exact flatMap_sections_eq_flatten data

/-- Witness for C4 at the spec's scenario catalog
`{"entradas": [Causa], "postres": []}`: `"all"` yields the one dish in
the detailed view and the one nonempty section in the simple view, while
the present-but-empty `"postres"` yields the placeholder in both views. -/
theorem render_filtering_witness :
    (sampleCatalog.map Prod.fst).Nodup
    ∧ ("postres" : String) ≠ "all"
    ∧ detailedDishes sampleCatalog "all" = [causaDish]
    ∧ renderDetailedView sampleCatalog "postres" = .placeholder
    ∧ renderSimpleView sampleCatalog "postres" = .placeholder
    ∧ renderSimpleView sampleCatalog "all" =
        .sections [("Entradas", [causaDish])]
    ∧ (simpleSections sampleCatalog "all").flatMap (fun p => p.2) =
        [causaDish] := by
  refine ⟨by decide, by decide, ?_, ?_, ?_, ?_, ?_⟩
  · rw [(render_filtering sampleCatalog "postres" (by decide) (by decide)).1]
    rfl
  · have h := (render_filtering sampleCatalog "postres" (by decide)
      (by decide)).2.2.2.1 [] rfl
    simpa using h.1
  · have h := (render_filtering sampleCatalog "postres" (by decide)
      (by decide)).2.2.2.1 [] rfl
    simpa using h.2
  · rw [(render_filtering sampleCatalog "postres" (by decide)
      (by decide)).2.2.2.2.2.1]
    decide
  · rw [(render_filtering sampleCatalog "postres" (by decide)
      (by decide)).2.2.2.2.2.2]
    rfl

end Arboleda
